import Mathlib

/-!
# eris-db: consensus adapter and mock pipe

A shallow embedding of

* `consensus/tendermint/tendermint.go` (`NewTendermintNode`, `TendermintNode.Listeners`), and
* `test/mock/pipe.go` (`NewMockPipe` and the seven fixture-backed subsystem handles),

followed by the properties established about them.

Go values are rendered as follows: a pointer or interface value is an `Option` (`none` is
`nil`), a slice is an `Option (List α)` (`none` is the nil slice), an `error` is an
`Option String` carrying the text of `Error()`, and a function with several results returns
a tuple.
-/

/-- A Go pointer or interface value; `none` is `nil`. -/
abbrev Ptr (α : Type) : Type := Option α

/-- A Go slice; `none` is the nil slice, `some []` an allocated slice of length zero. -/
abbrev Slice (α : Type) : Type := Option (List α)

/-- A Go `error`; `none` is `nil`, `some msg` an error whose `Error()` text is `msg`. -/
abbrev GoError : Type := Option String

/-- The elements of a slice, the nil slice having none. -/
def Slice.elems {α : Type} : Slice α → List α
  | none => []
  | some xs => xs

/-- The Go builtin `len` on slices. -/
def len {α : Type} (s : Slice α) : Nat := s.elems.length

/-- The Go builtin `copy(dst, src)`: the first `min (len dst) (len src)` elements of `dst`
are overwritten with those of `src`; the length of `dst` never changes. Returns the
contents of `dst` after the call and the number of elements copied. -/
def copy {α : Type} (dst src : Slice α) : Slice α × Nat :=
  let n := min (len dst) (len src)
  match dst with
  | none => (none, n)
  | some xs => (some (src.elems.take n ++ xs.drop n), n)

/-- The full slice expression `s[:]`; on a nil slice it is nil. -/
def sliceAll {α : Type} (s : Slice α) : Slice α := s

namespace mock

/-- Modelled from the spec: the record types of `core/types`, `account`, `txs`, `event`,
`definitions` and the tendermint libraries that the mock's signatures mention are not among
the sources; they are taken as parameters. -/
structure CoreTypes : Type 1 where
  PrivAccount : Type
  Account : Type
  AccountList : Type
  Storage : Type
  StorageItem : Type
  BlockchainInfo : Type
  Block : Type
  Blocks : Type
  ConsensusState : Type
  ValidatorList : Type
  NameRegEntry : Type
  ResultListNames : Type
  NetworkInfo : Type
  Peer : Type
  Call : Type
  Receipt : Type
  UnconfirmedTxs : Type
  EventDataCall : Type
  Tx : Type
  FilterData : Type
  EventCallback : Type
  Application : Type
  ConsensusEngine : Type
  TendermintPipe : Type

/-- One entry of the fixture table: the canned output stored for an operation. -/
structure Fixture (α : Type) where
  Output : α

/-- The output record of `GetChainId`. -/
structure ChainIdOutput where
  ChainId : String

/-- The output record of `GetGenesisHash`. -/
structure GenesisHashOutput where
  Hash : Slice Nat

/-- The output record of `GetLatestBlockHeight`. -/
structure LatestBlockHeightOutput where
  Height : Int

/-- The output record of `GetClientVersion`. -/
structure ClientVersionOutput where
  ClientVersion : String

/-- The output record of `GetMoniker`. -/
structure MonikerOutput where
  Moniker : String

/-- The output record of `IsListening`. -/
structure ListeningOutput where
  Listening : Bool

/-- The output record of `GetListeners`. -/
structure ListenersOutput where
  Listeners : Slice String

/-- Modelled from the spec: the declaration of `td.TestData` (package `test/testdata`) is not
among the sources. Section 3 describes the fixture dataset as an immutable, pre-populated
table mapping each subsystem operation to a canned output, so every operation record and
its `Output` is present. The fields are the ones `pipe.go` reads, with the types its
signatures give them; `GetPeer` is the one named by the disabled line of `net.Peer`. -/
structure TestData (T : CoreTypes) where
  GenPrivAccount : Fixture (Ptr T.PrivAccount)
  GetAccounts : Fixture (Ptr T.AccountList)
  GetAccount : Fixture (Ptr T.Account)
  GetStorage : Fixture (Ptr T.Storage)
  GetStorageAt : Fixture (Ptr T.StorageItem)
  GetBlockchainInfo : Fixture (Ptr T.BlockchainInfo)
  GetChainId : Fixture ChainIdOutput
  GetGenesisHash : Fixture GenesisHashOutput
  GetLatestBlockHeight : Fixture LatestBlockHeightOutput
  GetLatestBlock : Fixture (Ptr T.Block)
  GetBlocks : Fixture (Ptr T.Blocks)
  GetBlock : Fixture (Ptr T.Block)
  GetConsensusState : Fixture (Ptr T.ConsensusState)
  GetValidators : Fixture (Ptr T.ValidatorList)
  GetNameRegEntry : Fixture (Ptr T.NameRegEntry)
  GetNameRegEntries : Fixture (Ptr T.ResultListNames)
  GetNetworkInfo : Fixture (Ptr T.NetworkInfo)
  GetClientVersion : Fixture ClientVersionOutput
  GetMoniker : Fixture MonikerOutput
  IsListening : Fixture ListeningOutput
  GetListeners : Fixture ListenersOutput
  GetPeers : Fixture (Slice (Ptr T.Peer))
  GetPeer : Fixture (Ptr T.Peer)
  Call : Fixture (Ptr T.Call)
  CallCode : Fixture (Ptr T.Call)
  GetUnconfirmedTxs : Fixture (Ptr T.UnconfirmedTxs)
  TransactCreate : Fixture (Ptr T.Receipt)
  Transact : Fixture (Ptr T.Receipt)
  TransactNameReg : Fixture (Ptr T.Receipt)

/-- The `accounts` component. -/
structure accounts (T : CoreTypes) where
  testData : TestData T

/-- The `blockchain` component. -/
structure blockchain (T : CoreTypes) where
  testData : TestData T

/-- The `consensus` component. -/
structure consensus (T : CoreTypes) where
  testData : TestData T

/-- The `eventer` component. -/
structure eventer (T : CoreTypes) where
  testData : TestData T

/-- The `namereg` component. -/
structure namereg (T : CoreTypes) where
  testData : TestData T

/-- The `net` component. -/
structure net (T : CoreTypes) where
  testData : TestData T

/-- The `transactor` component. -/
structure transactor (T : CoreTypes) where
  testData : TestData T

/-- The base struct `MockPipe`. -/
structure MockPipe (T : CoreTypes) where
  testData : TestData T
  accounts : mock.accounts T
  blockchain : mock.blockchain T
  consensus : mock.consensus T
  events : mock.eventer T
  namereg : mock.namereg T
  net : mock.net T
  transactor : mock.transactor T

variable {T : CoreTypes}

/-- `NewMockPipe`: every component is built over the one dataset. -/
def NewMockPipe (td : TestData T) : MockPipe T :=
  let accounts : mock.accounts T := ⟨td⟩
  let blockchain : mock.blockchain T := ⟨td⟩
  let consensus : mock.consensus T := ⟨td⟩
  let eventer : mock.eventer T := ⟨td⟩
  let namereg : mock.namereg T := ⟨td⟩
  let net : mock.net T := ⟨td⟩
  let transactor : mock.transactor T := ⟨td⟩
  ⟨td, accounts, blockchain, consensus, eventer, namereg, net, transactor⟩

def MockPipe.Accounts (this : MockPipe T) : mock.accounts T := this.accounts

def MockPipe.Blockchain (this : MockPipe T) : mock.blockchain T := this.blockchain

def MockPipe.Consensus (this : MockPipe T) : mock.consensus T := this.consensus

def MockPipe.Events (this : MockPipe T) : mock.eventer T := this.events

def MockPipe.NameReg (this : MockPipe T) : mock.namereg T := this.namereg

def MockPipe.Net (this : MockPipe T) : mock.net T := this.net

def MockPipe.Transactor (this : MockPipe T) : mock.transactor T := this.transactor

def MockPipe.GetApplication (_this : MockPipe T) : Ptr T.Application := none

def MockPipe.SetConsensusEngine (_this : MockPipe T) (_e : Ptr T.ConsensusEngine) : GoError :=
  none

/-- `GetConsensusEngine`: the single result is the interface value, and it is `nil`. -/
def MockPipe.GetConsensusEngine (_this : MockPipe T) : Ptr T.ConsensusEngine := none

def MockPipe.GetTendermintPipe (_this : MockPipe T) : Ptr T.TendermintPipe × GoError :=
  (none, some "Tendermint pipe is not supported by mocked pipe.")

-- Accounts

def accounts.GenPrivAccount (this : accounts T) : Ptr T.PrivAccount × GoError :=
  (this.testData.GenPrivAccount.Output, none)

def accounts.GenPrivAccountFromKey (this : accounts T) (_key : Slice Nat) :
    Ptr T.PrivAccount × GoError :=
  (this.testData.GenPrivAccount.Output, none)

def accounts.Accounts (this : accounts T) (_filters : Slice (Ptr T.FilterData)) :
    Ptr T.AccountList × GoError :=
  (this.testData.GetAccounts.Output, none)

def accounts.Account (this : accounts T) (_address : Slice Nat) : Ptr T.Account × GoError :=
  (this.testData.GetAccount.Output, none)

def accounts.Storage (this : accounts T) (_address : Slice Nat) : Ptr T.Storage × GoError :=
  (this.testData.GetStorage.Output, none)

def accounts.StorageAt (this : accounts T) (_address _key : Slice Nat) :
    Ptr T.StorageItem × GoError :=
  (this.testData.GetStorageAt.Output, none)

-- Blockchain

def blockchain.Info (this : blockchain T) : Ptr T.BlockchainInfo × GoError :=
  (this.testData.GetBlockchainInfo.Output, none)

def blockchain.ChainId (this : blockchain T) : String × GoError :=
  (this.testData.GetChainId.Output.ChainId, none)

def blockchain.GenesisHash (this : blockchain T) : Slice Nat × GoError :=
  (this.testData.GetGenesisHash.Output.Hash, none)

def blockchain.LatestBlockHeight (this : blockchain T) : Int × GoError :=
  (this.testData.GetLatestBlockHeight.Output.Height, none)

def blockchain.LatestBlock (this : blockchain T) : Ptr T.Block × GoError :=
  (this.testData.GetLatestBlock.Output, none)

def blockchain.Blocks (this : blockchain T) (_filters : Slice (Ptr T.FilterData)) :
    Ptr T.Blocks × GoError :=
  (this.testData.GetBlocks.Output, none)

def blockchain.Block (this : blockchain T) (_height : Int) : Ptr T.Block × GoError :=
  (this.testData.GetBlock.Output, none)

-- Consensus

def consensus.State (this : consensus T) : Ptr T.ConsensusState × GoError :=
  (this.testData.GetConsensusState.Output, none)

def consensus.Validators (this : consensus T) : Ptr T.ValidatorList × GoError :=
  (this.testData.GetValidators.Output, none)

-- Events

def eventer.Subscribe (_this : eventer T) (_subId _event : String)
    (_callback : T.EventCallback) : Bool × GoError :=
  (true, none)

def eventer.Unsubscribe (_this : eventer T) (_subId : String) : Bool × GoError :=
  (true, none)

-- NameReg

def namereg.Entry (this : namereg T) (_key : String) : Ptr T.NameRegEntry × GoError :=
  (this.testData.GetNameRegEntry.Output, none)

def namereg.Entries (this : namereg T) (_filters : Slice (Ptr T.FilterData)) :
    Ptr T.ResultListNames × GoError :=
  (this.testData.GetNameRegEntries.Output, none)

-- Net

def net.Info (this : net T) : Ptr T.NetworkInfo × GoError :=
  (this.testData.GetNetworkInfo.Output, none)

def net.ClientVersion (this : net T) : String × GoError :=
  (this.testData.GetClientVersion.Output.ClientVersion, none)

def net.Moniker (this : net T) : String × GoError :=
  (this.testData.GetMoniker.Output.Moniker, none)

def net.Listening (this : net T) : Bool × GoError :=
  (this.testData.IsListening.Output.Listening, none)

def net.Listeners (this : net T) : Slice String × GoError :=
  (this.testData.GetListeners.Output.Listeners, none)

def net.Peers (this : net T) : Slice (Ptr T.Peer) × GoError :=
  (this.testData.GetPeers.Output, none)

/-- `net.Peer`: the line returning `testData.GetPeer.Output` is commented out in the source;
the body is `return nil, nil`. -/
def net.Peer (_this : net T) (_address : String) : Ptr T.Peer × GoError :=
  (none, none)

-- Txs

def transactor.Call (this : transactor T) (_fromAddress _toAddress _data : Slice Nat) :
    Ptr T.Call × GoError :=
  (this.testData.Call.Output, none)

def transactor.CallCode (this : transactor T) (_from _code _data : Slice Nat) :
    Ptr T.Call × GoError :=
  (this.testData.CallCode.Output, none)

def transactor.BroadcastTx (_this : transactor T) (_tx : Ptr T.Tx) : Ptr T.Receipt × GoError :=
  (none, none)

def transactor.UnconfirmedTxs (this : transactor T) : Ptr T.UnconfirmedTxs × GoError :=
  (this.testData.GetUnconfirmedTxs.Output, none)

def transactor.Transact (this : transactor T) (_privKey address _data : Slice Nat)
    (_gasLimit _fee : Int) : Ptr T.Receipt × GoError :=
  if address = none ∨ len address = 0 then
    (this.testData.TransactCreate.Output, none)
  else
    (this.testData.Transact.Output, none)

def transactor.TransactAndHold (_this : transactor T) (_privKey _address _data : Slice Nat)
    (_gasLimit _fee : Int) : Ptr T.EventDataCall × GoError :=
  (none, none)

def transactor.Send (_this : transactor T) (_privKey _toAddress : Slice Nat) (_amount : Int) :
    Ptr T.Receipt × GoError :=
  (none, none)

def transactor.SendAndHold (_this : transactor T) (_privKey _toAddress : Slice Nat)
    (_amount : Int) : Ptr T.Receipt × GoError :=
  (none, none)

def transactor.TransactNameReg (this : transactor T) (_privKey : Slice Nat)
    (_name _data : String) (_amount _fee : Int) : Ptr T.Receipt × GoError :=
  (this.testData.TransactNameReg.Output, none)

def transactor.SignTx (_this : transactor T) (_tx : Ptr T.Tx)
    (_privAccounts : Slice (Ptr T.PrivAccount)) : Ptr T.Tx × GoError :=
  (none, none)

end mock

namespace strings

/-- Cut a character sequence at every occurrence of `sep`. -/
def splitChars (sep : Char) : List Char → List (List Char)
  | [] => [[]]
  | c :: cs =>
    if c = sep then
      [] :: splitChars sep cs
    else
      match splitChars sep cs with
      | [] => [[c]]
      | w :: ws => (c :: w) :: ws

/-- The Go library function `strings.Split(s, sep)` for a separator of one character, which
is how `NewTendermintNode` calls it (`","`): the pieces of `s` between the occurrences of
`sep`, in order. The result is never the nil slice. -/
def Split (s : String) (sep : Char) : Slice String :=
  some ((splitChars sep s.data).map String.mk)

end strings

namespace tendermint

/-- A configuration subtree as `viper.Viper.Sub` hands it out. It is again a `*viper.Viper`;
the constructor only passes it on to `GetTendermintConfig`, so it is kept as a record of
its reading accessors. -/
structure ViperSubtree where
  GetString : String → String
  GetBool : String → Bool

/-- The interface of `viper.Viper` that `NewTendermintNode` uses. The library is external;
a value is given by what its accessors answer. -/
structure Viper where
  IsSet : String → Bool
  Sub : String → Ptr ViperSubtree
  GetString : String → String
  GetBool : String → Bool

/-- Modelled from the spec: `TendermintConfig` (file `config.go` of the package) is not
among the sources; it is the configuration subtree wrapped for the engine, read through
`GetString` and `GetBool`. -/
structure TendermintConfig where
  GetString : String → String
  GetBool : String → Bool

/-- The fields of `config.ModuleConfig` that `NewTendermintNode` reads. -/
structure ModuleConfig where
  Version : String
  ChainId : String
  WorkDir : String
  DataDir : String
  RootDir : String
  Config : Viper

/-- A `p2p.Listener` as made by `p2p.NewDefaultListener(protocol, lAddr, skipUPnP)`. -/
structure Listener where
  protocol : String
  lAddr : String
  skipUPnP : Bool
  deriving DecidableEq, Repr

/-- The part of the engine's `p2p.Switch` the adapter reads. -/
structure Switch where
  listeners : Slice Listener

def Switch.Listeners (sw : Switch) : Slice Listener := sw.listeners

/-- The part of `node.Node` the adapter depends on: what it was constructed from and its
switch. `App` is the host application, `PV` the private validator. -/
structure Node (App PV : Type) where
  config : TendermintConfig
  privValidator : PV
  application : App
  sw : Switch

def Node.Switch {App PV : Type} (n : Node App PV) : tendermint.Switch := n.sw

/-- The struct `TendermintNode`. -/
structure TendermintNode (App PV : Type) where
  tmintNode : Node App PV
  tmintConfig : TendermintConfig

/-- The calls `NewTendermintNode` makes on the logger, the key-file loader, the engine and
the network layer, recorded in the order they are made. -/
inductive Effect where
  | Log (level msg : String)
  | LoadOrGenPrivValidator (filePath : String)
  | NewNode
  | NewDefaultListener (protocol lAddr : String) (skipUPnP : Bool)
  | AddListener (l : Listener)
  | Start
  | Stop
  | DialSeeds (seeds : Slice String)
  deriving DecidableEq, Repr

/-- What `NewTendermintNode` calls but does not define, for one run of the constructor:
the expected version string `GetTendermintVersion().GetMinorVersionString()`, the three
configuration helpers of `config.go` (state passing replaces mutation through the
pointer), `path.Join`, the identity that `LoadOrGenPrivValidator` yields, the result of
`newNode.Start()` and the outcome of `newNode.DialSeeds`. -/
structure Collaborators (PV : Type) where
  TendermintVersion : String
  GetTendermintConfig : ViperSubtree → TendermintConfig
  AssertTendermintDefaults : TendermintConfig → String → String → String → String →
    TendermintConfig
  AssertTendermintConsistency : TendermintConfig → ModuleConfig → String → TendermintConfig
  pathJoin : String → String → String
  LoadOrGenPrivValidator : String → PV
  Start : GoError
  DialSeeds : Slice String → GoError

/-- The two results of `NewTendermintNode` together with the calls it made. -/
structure Outcome (App PV : Type) where
  node : Ptr (TendermintNode App PV)
  err : GoError
  effects : List Effect

variable {App PV : Type}

/-- The function `NewTendermintNode`. -/
def NewTendermintNode (env : Collaborators PV) (moduleConfig : ModuleConfig)
    (application : App) : Outcome App PV :=
  -- re-assert proper configuration for module
  if moduleConfig.Version ≠ env.TendermintVersion then
    ⟨none, some ("Version string " ++ moduleConfig.Version ++ " did not match " ++
      env.TendermintVersion), []⟩
  else if !moduleConfig.Config.IsSet "configuration" then
    ⟨none, some "Failed to extract Tendermint configuration subtree.", []⟩
  else
    match moduleConfig.Config.Sub "configuration" with
    | none => ⟨none, some "Failed to extract Tendermint configuration subtree.", []⟩
    | some tendermintConfigViper =>
      let tmintConfig := env.GetTendermintConfig tendermintConfigViper
      let tmintConfig := env.AssertTendermintDefaults tmintConfig moduleConfig.ChainId
        moduleConfig.WorkDir moduleConfig.DataDir moduleConfig.RootDir
      let privateValidatorFilePath := env.pathJoin moduleConfig.RootDir
        (moduleConfig.Config.GetString "private_validator_file")
      if moduleConfig.Config.GetString "private_validator_file" = "" then
        ⟨none, some "No private validator file provided.", []⟩
      else
        let tmintConfig := env.AssertTendermintConsistency tmintConfig moduleConfig
          privateValidatorFilePath
        let fx : List Effect := [Effect.Log "debug" "Loaded Tendermint sub-configuration"]
        let pvPath := env.pathJoin moduleConfig.RootDir
          (moduleConfig.Config.GetString "private_validator_file")
        let privateValidator := env.LoadOrGenPrivValidator pvPath
        let fx := fx ++ [Effect.LoadOrGenPrivValidator pvPath]
        let newNode : Node App PV := ⟨tmintConfig, privateValidator, application, ⟨none⟩⟩
        let fx := fx ++ [Effect.NewNode]
        let listener : Listener := ⟨"tcp", tmintConfig.GetString "node_laddr",
          tmintConfig.GetBool "skip_upnp"⟩
        let fx := fx ++ [Effect.NewDefaultListener "tcp" (tmintConfig.GetString "node_laddr")
          (tmintConfig.GetBool "skip_upnp")]
        let newNode : Node App PV :=
          ⟨newNode.config, newNode.privValidator, newNode.application,
            ⟨some (newNode.sw.listeners.elems ++ [listener])⟩⟩
        let fx := fx ++ [Effect.AddListener listener]
        let fx := fx ++ [Effect.Start]
        match env.Start with
        | some err =>
          let fx := fx ++ [Effect.Stop]
          ⟨none, some ("Failed to start Tendermint consensus node: " ++ err), fx⟩
        | none =>
          let fx := fx ++ [Effect.Log "info" "Tendermint consensus node started"]
          -- If seedNode is provided by config, dial out.
          if tmintConfig.GetString "seeds" ≠ "" then
            let seeds := strings.Split (tmintConfig.GetString "seeds") ','
            let _dialed := env.DialSeeds seeds
            let fx := fx ++ [Effect.DialSeeds seeds]
            let fx := fx ++ [Effect.Log "debug" "Tendermint node called seeds"]
            ⟨some ⟨newNode, tmintConfig⟩, none, fx⟩
          else
            ⟨some ⟨newNode, tmintConfig⟩, none, fx⟩

/-- The method `TendermintNode.Listeners`. -/
def TendermintNode.Listeners (this : TendermintNode App PV) : Slice Listener :=
  let copyListeners : Slice Listener := none
  -- copy slice of Listeners
  let copyListeners := (copy (sliceAll copyListeners) this.tmintNode.Switch.Listeners).1
  copyListeners

end tendermint

namespace mock

/-- A choice of record types for concrete datasets: every external record is identified by
a number. -/
@[reducible] def fixtureTypes : CoreTypes :=
  ⟨Nat, Nat, Nat, Nat, Nat, Nat, Nat, Nat, Nat, Nat, Nat, Nat, Nat, Nat, Nat, Nat, Nat, Nat,
    Nat, Nat, Nat, Nat, Nat, Nat⟩

/-- A concrete dataset whose outputs are pairwise distinguishable; `GetChainId` maps to
`{ChainId: "test-chain-1"}`. -/
def fixtureData : TestData fixtureTypes where
  GenPrivAccount := ⟨some 1⟩
  GetAccounts := ⟨some 2⟩
  GetAccount := ⟨some 3⟩
  GetStorage := ⟨some 4⟩
  GetStorageAt := ⟨some 5⟩
  GetBlockchainInfo := ⟨some 6⟩
  GetChainId := ⟨⟨"test-chain-1"⟩⟩
  GetGenesisHash := ⟨⟨some [222, 173]⟩⟩
  GetLatestBlockHeight := ⟨⟨7⟩⟩
  GetLatestBlock := ⟨some 8⟩
  GetBlocks := ⟨some 9⟩
  GetBlock := ⟨some 10⟩
  GetConsensusState := ⟨some 11⟩
  GetValidators := ⟨some 12⟩
  GetNameRegEntry := ⟨some 13⟩
  GetNameRegEntries := ⟨some 14⟩
  GetNetworkInfo := ⟨some 15⟩
  GetClientVersion := ⟨⟨"0.12.0"⟩⟩
  GetMoniker := ⟨⟨"anothertester"⟩⟩
  IsListening := ⟨⟨true⟩⟩
  GetListeners := ⟨⟨some ["tcp://0.0.0.0:46656"]⟩⟩
  GetPeers := ⟨some [some 16]⟩
  GetPeer := ⟨some 17⟩
  Call := ⟨some 18⟩
  CallCode := ⟨some 19⟩
  GetUnconfirmedTxs := ⟨some 20⟩
  TransactCreate := ⟨some 21⟩
  Transact := ⟨some 22⟩
  TransactNameReg := ⟨some 23⟩

end mock

namespace tendermint

variable {App PV : Type}

/-- The engine configuration `NewTendermintNode` arrives at from the subtree `v`: wrapped by
`GetTendermintConfig`, completed by `AssertTendermintDefaults`, then overridden by
`AssertTendermintConsistency` with the resolved private-validator path. -/
def resolvedConfig (env : Collaborators PV) (moduleConfig : ModuleConfig)
    (v : ViperSubtree) : TendermintConfig :=
  env.AssertTendermintConsistency
    (env.AssertTendermintDefaults (env.GetTendermintConfig v) moduleConfig.ChainId
      moduleConfig.WorkDir moduleConfig.DataDir moduleConfig.RootDir)
    moduleConfig
    (env.pathJoin moduleConfig.RootDir
      (moduleConfig.Config.GetString "private_validator_file"))

/-- The calls made up to and including `Start` on a configuration that passes the checks. -/
def callsThroughStart (env : Collaborators PV) (moduleConfig : ModuleConfig)
    (v : ViperSubtree) : List Effect :=
  [Effect.Log "debug" "Loaded Tendermint sub-configuration",
   Effect.LoadOrGenPrivValidator (env.pathJoin moduleConfig.RootDir
     (moduleConfig.Config.GetString "private_validator_file")),
   Effect.NewNode,
   Effect.NewDefaultListener "tcp"
     ((resolvedConfig env moduleConfig v).GetString "node_laddr")
     ((resolvedConfig env moduleConfig v).GetBool "skip_upnp"),
   Effect.AddListener ⟨"tcp", (resolvedConfig env moduleConfig v).GetString "node_laddr",
     (resolvedConfig env moduleConfig v).GetBool "skip_upnp"⟩,
   Effect.Start]

/-- A concrete set of collaborators: expected version `"0.6"`, defaults that set the chain
id, overrides that set the key file, `Start` with the given result, and a dial that
fails. -/
def sampleEnv (start : GoError) : Collaborators String where
  TendermintVersion := "0.6"
  GetTendermintConfig v := ⟨v.GetString, v.GetBool⟩
  AssertTendermintDefaults c chainId _ _ _ :=
    ⟨fun k => if k = "chain_id" then chainId else c.GetString k, c.GetBool⟩
  AssertTendermintConsistency c _ p :=
    ⟨fun k => if k = "priv_validator_file" then p else c.GetString k, c.GetBool⟩
  pathJoin a b := a ++ "/" ++ b
  LoadOrGenPrivValidator p := p
  Start := start
  DialSeeds _ := some "dial tcp: connection refused"

/-- The configuration subtree of the concrete module configuration. -/
def sampleSubtree (seeds : String) : ViperSubtree where
  GetString k :=
    if k = "seeds" then seeds else if k = "node_laddr" then "0.0.0.0:46656" else ""
  GetBool _ := false

/-- A concrete module configuration with the given version string, presence of the
`configuration` subtree, private-validator file and seed list. -/
def sampleConfig (version : String) (configured : Bool) (privValFile seeds : String) :
    ModuleConfig where
  Version := version
  ChainId := "test-chain-1"
  WorkDir := "/work"
  DataDir := "/data"
  RootDir := "/root"
  Config :=
    { IsSet := fun k => configured && decide (k = "configuration")
      Sub := fun k =>
        if configured && decide (k = "configuration") then some (sampleSubtree seeds)
        else none
      GetString := fun k => if k = "private_validator_file" then privValFile else ""
      GetBool := fun _ => false }

/-- An adapter whose engine switch holds one listener. -/
def sampleNode : TendermintNode Unit String where
  tmintNode :=
    { config := resolvedConfig (sampleEnv none) (sampleConfig "0.6" true "pv.json" "")
        (sampleSubtree "")
      privValidator := "/root/pv.json"
      application := ()
      sw := ⟨some [⟨"tcp", "0.0.0.0:46656", false⟩]⟩ }
  tmintConfig := resolvedConfig (sampleEnv none) (sampleConfig "0.6" true "pv.json" "")
    (sampleSubtree "")

end tendermint

namespace strings

theorem splitChars_ne_nil (sep : Char) (cs : List Char) : splitChars sep cs ≠ [] := by
  cases cs with
  | nil => simp [splitChars]
  | cons c cs =>
    by_cases h : c = sep
    · simp [splitChars, h]
    · cases hs : splitChars sep cs <;> simp [splitChars, h, hs]

/-- No piece produced by `splitChars` contains the separator. -/
theorem splitChars_no_sep (sep : Char) (cs : List Char) :
    ∀ w ∈ splitChars sep cs, sep ∉ w := by
  induction cs with
  | nil => simp [splitChars]
  | cons c cs ih =>
    by_cases h : c = sep
    · simpa [splitChars, h] using ih
    · cases hs : splitChars sep cs with
      | nil => exact absurd hs (splitChars_ne_nil sep cs)
      | cons w ws =>
        rw [hs] at ih
        have hne : ¬ sep = c := fun h2 => h h2.symm
        simp only [splitChars, h, hs, if_false, List.mem_cons]
        intro x hx
        rcases hx with rfl | hx
        · have := ih w (by simp)
          simp [hne, this]
        · exact ih x (by simp [hx])

/-- Joining the pieces of `splitChars` with the separator gives back the input. -/
theorem splitChars_intercalate (sep : Char) (cs : List Char) :
    [sep].intercalate (splitChars sep cs) = cs := by
  induction cs with
  | nil => simp [splitChars, List.intercalate]
  | cons c cs ih =>
    by_cases h : c = sep
    · cases hs : splitChars sep cs with
      | nil => exact absurd hs (splitChars_ne_nil sep cs)
      | cons w ws =>
        rw [hs] at ih
        simp only [splitChars, h, hs, if_true]
        simp only [List.intercalate] at ih ⊢
        simp [List.intersperse, ih]
    · cases hs : splitChars sep cs with
      | nil => exact absurd hs (splitChars_ne_nil sep cs)
      | cons w ws =>
        rw [hs] at ih
        simp only [splitChars, h, hs, if_false]
        cases ws with
        | nil => simpa [List.intercalate, List.intersperse] using ih
        | cons w2 ws2 =>
          simp only [List.intercalate] at ih ⊢
          simpa [List.intersperse] using ih

end strings

namespace tendermint

variable {App PV : Type}

/-- On a configuration that passes the checks, a failing `Start` gives this outcome. -/
theorem newTendermintNode_start_failed (env : Collaborators PV) (cfg : ModuleConfig)
    (app : App) (v : ViperSubtree) (e : String)
    (hver : cfg.Version = env.TendermintVersion)
    (hset : cfg.Config.IsSet "configuration" = true)
    (hsub : cfg.Config.Sub "configuration" = some v)
    (hpv : cfg.Config.GetString "private_validator_file" ≠ "")
    (hstart : env.Start = some e) :
    NewTendermintNode env cfg app
      = ⟨none, some ("Failed to start Tendermint consensus node: " ++ e),
          callsThroughStart env cfg v ++ [Effect.Stop]⟩ := by
  simp [NewTendermintNode, hver, hset, hsub, hpv, hstart, callsThroughStart, resolvedConfig]

/-- On a configuration that passes the checks, a successful `Start` gives this outcome. -/
theorem newTendermintNode_started (env : Collaborators PV) (cfg : ModuleConfig)
    (app : App) (v : ViperSubtree)
    (hver : cfg.Version = env.TendermintVersion)
    (hset : cfg.Config.IsSet "configuration" = true)
    (hsub : cfg.Config.Sub "configuration" = some v)
    (hpv : cfg.Config.GetString "private_validator_file" ≠ "")
    (hstart : env.Start = none) :
    NewTendermintNode env cfg app
      = ⟨some ⟨⟨resolvedConfig env cfg v,
            env.LoadOrGenPrivValidator (env.pathJoin cfg.RootDir
              (cfg.Config.GetString "private_validator_file")),
            app,
            ⟨some [⟨"tcp", (resolvedConfig env cfg v).GetString "node_laddr",
              (resolvedConfig env cfg v).GetBool "skip_upnp"⟩]⟩⟩,
          resolvedConfig env cfg v⟩,
        none,
        callsThroughStart env cfg v ++
          Effect.Log "info" "Tendermint consensus node started" ::
          (if (resolvedConfig env cfg v).GetString "seeds" ≠ "" then
            [Effect.DialSeeds (strings.Split ((resolvedConfig env cfg v).GetString "seeds") ','),
             Effect.Log "debug" "Tendermint node called seeds"]
          else [])⟩ := by
  by_cases hs : (resolvedConfig env cfg v).GetString "seeds" = ""
  · simp only [resolvedConfig] at hs
    simp [NewTendermintNode, hver, hset, hsub, hpv, hstart, callsThroughStart, resolvedConfig,
      hs, Slice.elems]
  · simp only [resolvedConfig] at hs
    simp [NewTendermintNode, hver, hset, hsub, hpv, hstart, callsThroughStart, resolvedConfig,
      hs, Slice.elems]

/-- C1 does not hold of the code. `Listeners` declares a nil destination slice and copies
into it, so nothing is copied: for every adapter the result is the nil slice. On the
adapter whose switch holds one listener the switch's collection has length 1 and the
returned one has length 0. -/
theorem listeners_copies_nothing :
    (∀ this : TendermintNode App PV, this.Listeners = none) ∧
    sampleNode.tmintNode.Switch.Listeners = some [⟨"tcp", "0.0.0.0:46656", false⟩] ∧
    len sampleNode.tmintNode.Switch.Listeners = 1 ∧
    len sampleNode.Listeners = 0 := by
  refine ⟨fun this => rfl, rfl, rfl, rfl⟩

/-- C2. When the module configuration's version string differs from the expected one,
`NewTendermintNode` returns a nil adapter and a non-nil error (naming both version
strings) and makes no call at all on the key-file loader, the engine or the network layer:
no private validator is loaded or generated, no node is constructed, no listener is
created, and the engine is neither started nor stopped. -/
theorem version_mismatch_no_effect (env : Collaborators PV) (cfg : ModuleConfig) (app : App)
    (hver : cfg.Version ≠ env.TendermintVersion) :
    (NewTendermintNode env cfg app).node = none ∧
    (NewTendermintNode env cfg app).err
      = some ("Version string " ++ cfg.Version ++ " did not match " ++
          env.TendermintVersion) ∧
    (NewTendermintNode env cfg app).err ≠ none ∧
    (NewTendermintNode env cfg app).effects = [] := by
  simp [NewTendermintNode, hver]

/-- Witness for C2: version `"0.5"` against the expected `"0.6"`, on an otherwise complete
configuration. -/
theorem version_mismatch_no_effect_witness :
    (sampleConfig "0.5" true "pv.json" "a,b").Version ≠ (sampleEnv none).TendermintVersion ∧
    (NewTendermintNode (sampleEnv none) (sampleConfig "0.5" true "pv.json" "a,b") ()).node
      = none ∧
    (NewTendermintNode (sampleEnv none) (sampleConfig "0.5" true "pv.json" "a,b") ()).err
      = some "Version string 0.5 did not match 0.6" ∧
    (NewTendermintNode (sampleEnv none) (sampleConfig "0.5" true "pv.json" "a,b") ()).effects
      = [] :=
  have h := version_mismatch_no_effect (sampleEnv none)
    (sampleConfig "0.5" true "pv.json" "a,b") () (by decide)
  ⟨by decide, h.1, h.2.1.trans (by decide), h.2.2.2⟩

/-- C3. With a matching version, if the `configuration` subtree is absent (not set, or
`Sub` yields nil) or the `private_validator_file` setting is the empty string,
`NewTendermintNode` returns a nil adapter and a non-nil error and has made no call on the
key-file loader, the engine or the network layer: no private validator is loaded or
generated, no node is constructed, no listener is created and `Start` is never called. -/
theorem config_missing_no_effect (env : Collaborators PV) (cfg : ModuleConfig) (app : App)
    (hver : cfg.Version = env.TendermintVersion)
    (hmiss : cfg.Config.IsSet "configuration" = false ∨
      cfg.Config.Sub "configuration" = none ∨
      cfg.Config.GetString "private_validator_file" = "") :
    (NewTendermintNode env cfg app).node = none ∧
    (NewTendermintNode env cfg app).err ≠ none ∧
    (NewTendermintNode env cfg app).effects = [] ∧
    Effect.Start ∉ (NewTendermintNode env cfg app).effects := by
  have key : (NewTendermintNode env cfg app).node = none ∧
      (NewTendermintNode env cfg app).err ≠ none ∧
      (NewTendermintNode env cfg app).effects = [] := by
    rcases hmiss with h | h | h
    · simp [NewTendermintNode, hver, h]
    · cases hset : cfg.Config.IsSet "configuration" <;>
        simp [NewTendermintNode, hver, h, hset]
    · cases hset : cfg.Config.IsSet "configuration"
      · simp [NewTendermintNode, hver, hset]
      · cases hsub : cfg.Config.Sub "configuration" <;>
          simp [NewTendermintNode, hver, h, hset, hsub]
  refine ⟨key.1, key.2.1, key.2.2, ?_⟩
  rw [key.2.2]
  simp

/-- Witness for C3: once with the subtree absent, once with an empty key-file setting. -/
theorem config_missing_no_effect_witness :
    ((NewTendermintNode (sampleEnv none) (sampleConfig "0.6" false "pv.json" "a,b") ()).node
        = none ∧
      (NewTendermintNode (sampleEnv none) (sampleConfig "0.6" false "pv.json" "a,b") ()).err
        = some "Failed to extract Tendermint configuration subtree." ∧
      (NewTendermintNode (sampleEnv none)
        (sampleConfig "0.6" false "pv.json" "a,b") ()).effects = []) ∧
    ((NewTendermintNode (sampleEnv none) (sampleConfig "0.6" true "" "a,b") ()).node = none ∧
      (NewTendermintNode (sampleEnv none) (sampleConfig "0.6" true "" "a,b") ()).err
        = some "No private validator file provided." ∧
      (NewTendermintNode (sampleEnv none) (sampleConfig "0.6" true "" "a,b") ()).effects
        = []) :=
  have h1 := config_missing_no_effect (sampleEnv none)
    (sampleConfig "0.6" false "pv.json" "a,b") () (by decide) (Or.inl (by decide))
  have h2 := config_missing_no_effect (sampleEnv none)
    (sampleConfig "0.6" true "" "a,b") () (by decide) (Or.inr (Or.inr (by decide)))
  ⟨⟨h1.1, by decide, h1.2.2.1⟩, ⟨h2.1, by decide, h2.2.2.1⟩⟩

end tendermint

namespace tendermint

variable {App PV : Type}

/-- C4. On a configuration that passes the checks, if the engine's `Start` fails with cause
`e`, `NewTendermintNode` returns a nil adapter and an error whose text is the start-failure
message followed by the text of `e`; `Stop` is called exactly once, it is the last call
made and comes directly after the one call of `Start`; and no seeds are dialled, whatever
seed list is configured. -/
theorem start_failure_stops_engine (env : Collaborators PV) (cfg : ModuleConfig) (app : App)
    (v : ViperSubtree) (e : String)
    (hver : cfg.Version = env.TendermintVersion)
    (hset : cfg.Config.IsSet "configuration" = true)
    (hsub : cfg.Config.Sub "configuration" = some v)
    (hpv : cfg.Config.GetString "private_validator_file" ≠ "")
    (hstart : env.Start = some e) :
    (NewTendermintNode env cfg app).node = none ∧
    (NewTendermintNode env cfg app).err
      = some ("Failed to start Tendermint consensus node: " ++ e) ∧
    (NewTendermintNode env cfg app).effects.count Effect.Stop = 1 ∧
    (∃ pre, (NewTendermintNode env cfg app).effects = pre ++ [Effect.Start, Effect.Stop] ∧
      Effect.Start ∉ pre ∧ Effect.Stop ∉ pre) ∧
    (∀ seeds, Effect.DialSeeds seeds ∉ (NewTendermintNode env cfg app).effects) := by
  rw [newTendermintNode_start_failed env cfg app v e hver hset hsub hpv hstart]
  refine ⟨rfl, rfl, ?_, ?_, ?_⟩
  · simp [callsThroughStart]
  · refine ⟨(callsThroughStart env cfg v).dropLast, ?_, ?_, ?_⟩ <;>
      simp [callsThroughStart, List.dropLast]
  · intro seeds
    simp [callsThroughStart]

/-- Witness for C4: a complete configuration with seed list `"a,b"` and a `Start` that fails
with `"listen tcp: address already in use"`. -/
theorem start_failure_stops_engine_witness :
    (NewTendermintNode (sampleEnv (some "listen tcp: address already in use"))
        (sampleConfig "0.6" true "pv.json" "a,b") ()).node = none ∧
    (NewTendermintNode (sampleEnv (some "listen tcp: address already in use"))
        (sampleConfig "0.6" true "pv.json" "a,b") ()).err
      = some "Failed to start Tendermint consensus node: listen tcp: address already in use" ∧
    (NewTendermintNode (sampleEnv (some "listen tcp: address already in use"))
        (sampleConfig "0.6" true "pv.json" "a,b") ()).effects.count Effect.Stop = 1 ∧
    Effect.DialSeeds (some ["a", "b"]) ∉
      (NewTendermintNode (sampleEnv (some "listen tcp: address already in use"))
        (sampleConfig "0.6" true "pv.json" "a,b") ()).effects :=
  have h := start_failure_stops_engine
    (sampleEnv (some "listen tcp: address already in use"))
    (sampleConfig "0.6" true "pv.json" "a,b") () (sampleSubtree "a,b")
    "listen tcp: address already in use" (by decide) (by decide) rfl (by decide)
    (by decide)
  ⟨h.1, h.2.1.trans (by decide), h.2.2.1, h.2.2.2.2 _⟩

/-- C10. On a configuration that passes the checks, if the engine's `Start` succeeds,
`NewTendermintNode` returns an adapter (holding the resolved engine configuration) and a
nil error, for every outcome of the dial. With `s` the `seeds` string of that
configuration: if `s` is non-empty, exactly one dial is made, its argument is `s` split on
commas, and it comes after `Start`; if `s` is empty, no dial is made. -/
theorem seeds_dialed_after_start (env : Collaborators PV) (cfg : ModuleConfig) (app : App)
    (v : ViperSubtree)
    (hver : cfg.Version = env.TendermintVersion)
    (hset : cfg.Config.IsSet "configuration" = true)
    (hsub : cfg.Config.Sub "configuration" = some v)
    (hpv : cfg.Config.GetString "private_validator_file" ≠ "")
    (hstart : env.Start = none) :
    (∃ n, (NewTendermintNode env cfg app).node = some n ∧
      n.tmintConfig = resolvedConfig env cfg v) ∧
    (NewTendermintNode env cfg app).err = none ∧
    ((resolvedConfig env cfg v).GetString "seeds" ≠ "" →
      ∃ pre mid post,
        (NewTendermintNode env cfg app).effects
          = pre ++ Effect.Start :: mid ++
              Effect.DialSeeds
                (strings.Split ((resolvedConfig env cfg v).GetString "seeds") ',') :: post ∧
        ∀ seeds, Effect.DialSeeds seeds ∉ pre ++ mid ++ post) ∧
    ((resolvedConfig env cfg v).GetString "seeds" = "" →
      ∀ seeds, Effect.DialSeeds seeds ∉ (NewTendermintNode env cfg app).effects) := by
  rw [newTendermintNode_started env cfg app v hver hset hsub hpv hstart]
  refine ⟨⟨_, rfl, rfl⟩, rfl, ?_, ?_⟩
  · intro hs
    refine ⟨(callsThroughStart env cfg v).dropLast,
      [Effect.Log "info" "Tendermint consensus node started"],
      [Effect.Log "debug" "Tendermint node called seeds"], ?_, ?_⟩
    · simp [callsThroughStart, List.dropLast, hs]
    · intro seeds
      simp [callsThroughStart, List.dropLast]
  · intro hs seeds
    simp [callsThroughStart, hs]

/-- Witness for C10: on a complete configuration whose seed list is `"a,b"`, with a `Start`
that succeeds and a dial that fails, an adapter is returned with a nil error and the list
`["a", "b"]` is dialled. -/
theorem seeds_dialed_after_start_witness :
    (NewTendermintNode (sampleEnv none) (sampleConfig "0.6" true "pv.json" "a,b") ()).node
      ≠ none ∧
    (NewTendermintNode (sampleEnv none) (sampleConfig "0.6" true "pv.json" "a,b") ()).err
      = none ∧
    (sampleEnv none).DialSeeds (some ["a", "b"]) ≠ none ∧
    ∃ pre mid post,
      (NewTendermintNode (sampleEnv none) (sampleConfig "0.6" true "pv.json" "a,b") ()).effects
        = pre ++ Effect.Start :: mid ++ Effect.DialSeeds (some ["a", "b"]) :: post ∧
      ∀ seeds, Effect.DialSeeds seeds ∉ pre ++ mid ++ post :=
  have h := seeds_dialed_after_start (sampleEnv none)
    (sampleConfig "0.6" true "pv.json" "a,b") () (sampleSubtree "a,b")
    (by decide) (by decide) rfl (by decide) (by decide)
  ⟨by obtain ⟨n, hn, _⟩ := h.1; simp [hn], h.2.1, by decide, h.2.2.1 (by decide)⟩

end tendermint

namespace mock

variable {T : CoreTypes}

/-- C5. For every dataset and all values of the other arguments, `Transact` on the double
gives the dataset's `TransactCreate` output with a nil error when the target address is
empty (nil or of length zero), and the dataset's `Transact` output with a nil error when
the target address is non-empty. -/
theorem transact_create_or_call (d : TestData T) (privKey address data : Slice Nat)
    (gasLimit fee : Int) :
    ((address = none ∨ len address = 0) →
      (NewMockPipe d).Transactor.Transact privKey address data gasLimit fee
        = (d.TransactCreate.Output, none)) ∧
    (¬ (address = none ∨ len address = 0) →
      (NewMockPipe d).Transactor.Transact privKey address data gasLimit fee
        = (d.Transact.Output, none)) := by
  constructor
  · intro h
    simp [transactor.Transact, MockPipe.Transactor, NewMockPipe, h]
  · intro h
    simp [transactor.Transact, MockPipe.Transactor, NewMockPipe, h]

/-- Witness for C5 on the concrete dataset: a nil address and an allocated empty address
give the create output, a one-byte address gives the call output. -/
theorem transact_create_or_call_witness :
    (NewMockPipe fixtureData).Transactor.Transact (some [1]) none (some [2]) 5 6
      = (some 21, none) ∧
    (NewMockPipe fixtureData).Transactor.Transact (some [1]) (some []) (some [2]) 5 6
      = (some 21, none) ∧
    (NewMockPipe fixtureData).Transactor.Transact (some [1]) (some [171]) (some [2]) 5 6
      = (some 22, none) :=
  ⟨(transact_create_or_call fixtureData (some [1]) none (some [2]) 5 6).1 (by decide),
   (transact_create_or_call fixtureData (some [1]) (some []) (some [2]) 5 6).1 (by decide),
   (transact_create_or_call fixtureData (some [1]) (some [171]) (some [2]) 5 6).2
     (by decide)⟩

/-- C6, as stated, fails: on the concrete dataset the result of `GetConsensusEngine` is the
bare nil engine value. -/
theorem getConsensusEngine_not_explicit_signal :
    ¬ ((NewMockPipe fixtureData).GetConsensusEngine ≠ none) := by
  simp [MockPipe.GetConsensusEngine]

/-- C6, amended. For every dataset, `GetConsensusEngine` on the double returns the nil
engine value; the method has that single result, so no error value accompanies it. -/
theorem getConsensusEngine_is_nil (d : TestData T) :
    (NewMockPipe d).GetConsensusEngine = none := by
  rfl

/-- C7. For every dataset, `GetTendermintPipe` on the double returns a nil pipe together
with a non-nil error, whose text says the pipe is not supported by the mocked pipe; the
error is never nil. -/
theorem getTendermintPipe_unsupported (d : TestData T) :
    (NewMockPipe d).GetTendermintPipe.1 = none ∧
    (NewMockPipe d).GetTendermintPipe.2 ≠ none ∧
    (NewMockPipe d).GetTendermintPipe.2
      = some "Tendermint pipe is not supported by mocked pipe." := by
  simp [MockPipe.GetTendermintPipe]

/-- C8. For every dataset `d`, the facade built by `NewMockPipe d` has its blockchain handle
wired to `d`, the `Blockchain` accessor returns that handle, and `ChainId` on it returns
exactly `d.GetChainId.Output.ChainId` with a nil error; on the dataset that maps
`GetChainId` to `{ChainId: "test-chain-1"}` this is `"test-chain-1"`, nil. -/
theorem blockchain_chainId_from_dataset (d : TestData T) :
    (NewMockPipe d).Blockchain = (NewMockPipe d).blockchain ∧
    (NewMockPipe d).Blockchain.testData = d ∧
    (NewMockPipe d).Blockchain.ChainId = (d.GetChainId.Output.ChainId, none) ∧
    (NewMockPipe fixtureData).Blockchain.ChainId = ("test-chain-1", none) := by
  refine ⟨rfl, rfl, rfl, rfl⟩

end mock

namespace mock

variable {T : CoreTypes}

/-- C9, as stated, fails on the concrete dataset: `Transact` gives different results for
two target addresses (nil and a one-byte address), so it is not the same for any two
argument values; and `Net().Peer` does not return the dataset's `GetPeer` output. -/
theorem canned_output_counterexample :
    (NewMockPipe fixtureData).Transactor.Transact none none none 0 0
      ≠ (NewMockPipe fixtureData).Transactor.Transact none (some [1]) none 0 0 ∧
    ((NewMockPipe fixtureData).Net.Peer "127.0.0.1:46656").1
      ≠ fixtureData.GetPeer.Output := by
  decide

/-- C9, amended. For every dataset `d`: each method of the seven handles other than
`Transact` returns the same result for all argument values; for the methods that read the
dataset that result is `d`'s stored output for the operation, with a nil error;
`Subscribe` and `Unsubscribe` return `true` with a nil error; and `Transact` depends on
its arguments only through whether the target address is empty, returning `d`'s
`TransactCreate` output if it is and `d`'s `Transact` output if not. -/
theorem canned_output_amended (d : TestData T) :
    -- Accounts
    ((NewMockPipe d).Accounts.GenPrivAccount = (d.GenPrivAccount.Output, none) ∧
     (∀ key, (NewMockPipe d).Accounts.GenPrivAccountFromKey key
        = (d.GenPrivAccount.Output, none)) ∧
     (∀ filters, (NewMockPipe d).Accounts.Accounts filters = (d.GetAccounts.Output, none)) ∧
     (∀ address, (NewMockPipe d).Accounts.Account address = (d.GetAccount.Output, none)) ∧
     (∀ address, (NewMockPipe d).Accounts.Storage address = (d.GetStorage.Output, none)) ∧
     (∀ address key, (NewMockPipe d).Accounts.StorageAt address key
        = (d.GetStorageAt.Output, none))) ∧
    -- Blockchain
    ((NewMockPipe d).Blockchain.Info = (d.GetBlockchainInfo.Output, none) ∧
     (NewMockPipe d).Blockchain.ChainId = (d.GetChainId.Output.ChainId, none) ∧
     (NewMockPipe d).Blockchain.GenesisHash = (d.GetGenesisHash.Output.Hash, none) ∧
     (NewMockPipe d).Blockchain.LatestBlockHeight
        = (d.GetLatestBlockHeight.Output.Height, none) ∧
     (NewMockPipe d).Blockchain.LatestBlock = (d.GetLatestBlock.Output, none) ∧
     (∀ filters, (NewMockPipe d).Blockchain.Blocks filters = (d.GetBlocks.Output, none)) ∧
     (∀ height, (NewMockPipe d).Blockchain.Block height = (d.GetBlock.Output, none))) ∧
    -- Consensus
    ((NewMockPipe d).Consensus.State = (d.GetConsensusState.Output, none) ∧
     (NewMockPipe d).Consensus.Validators = (d.GetValidators.Output, none)) ∧
    -- Events
    ((∀ subId event callback, (NewMockPipe d).Events.Subscribe subId event callback
        = (true, none)) ∧
     (∀ subId, (NewMockPipe d).Events.Unsubscribe subId = (true, none))) ∧
    -- NameReg
    ((∀ key, (NewMockPipe d).NameReg.Entry key = (d.GetNameRegEntry.Output, none)) ∧
     (∀ filters, (NewMockPipe d).NameReg.Entries filters
        = (d.GetNameRegEntries.Output, none))) ∧
    -- Net
    ((NewMockPipe d).Net.Info = (d.GetNetworkInfo.Output, none) ∧
     (NewMockPipe d).Net.ClientVersion = (d.GetClientVersion.Output.ClientVersion, none) ∧
     (NewMockPipe d).Net.Moniker = (d.GetMoniker.Output.Moniker, none) ∧
     (NewMockPipe d).Net.Listening = (d.IsListening.Output.Listening, none) ∧
     (NewMockPipe d).Net.Listeners = (d.GetListeners.Output.Listeners, none) ∧
     (NewMockPipe d).Net.Peers = (d.GetPeers.Output, none) ∧
     (∀ address address2, (NewMockPipe d).Net.Peer address
        = (NewMockPipe d).Net.Peer address2)) ∧
    -- Transactor
    ((∀ fromAddress toAddress data, (NewMockPipe d).Transactor.Call fromAddress toAddress data
        = (d.Call.Output, none)) ∧
     (∀ src code data, (NewMockPipe d).Transactor.CallCode src code data
        = (d.CallCode.Output, none)) ∧
     (∀ tx tx2, (NewMockPipe d).Transactor.BroadcastTx tx
        = (NewMockPipe d).Transactor.BroadcastTx tx2) ∧
     (NewMockPipe d).Transactor.UnconfirmedTxs = (d.GetUnconfirmedTxs.Output, none) ∧
     (∀ privKey address data gasLimit fee,
        (NewMockPipe d).Transactor.Transact privKey address data gasLimit fee
          = (if len address = 0 then d.TransactCreate.Output else d.Transact.Output, none)) ∧
     (∀ privKey address data gasLimit fee privKey2 address2 data2 gasLimit2 fee2,
        (NewMockPipe d).Transactor.TransactAndHold privKey address data gasLimit fee
          = (NewMockPipe d).Transactor.TransactAndHold privKey2 address2 data2 gasLimit2
              fee2) ∧
     (∀ privKey toAddress amount privKey2 toAddress2 amount2,
        (NewMockPipe d).Transactor.Send privKey toAddress amount
          = (NewMockPipe d).Transactor.Send privKey2 toAddress2 amount2) ∧
     (∀ privKey toAddress amount privKey2 toAddress2 amount2,
        (NewMockPipe d).Transactor.SendAndHold privKey toAddress amount
          = (NewMockPipe d).Transactor.SendAndHold privKey2 toAddress2 amount2) ∧
     (∀ privKey name data amount fee,
        (NewMockPipe d).Transactor.TransactNameReg privKey name data amount fee
          = (d.TransactNameReg.Output, none)) ∧
     (∀ tx privAccounts tx2 privAccounts2, (NewMockPipe d).Transactor.SignTx tx privAccounts
        = (NewMockPipe d).Transactor.SignTx tx2 privAccounts2)) := by
  refine ⟨⟨rfl, fun _ => rfl, fun _ => rfl, fun _ => rfl, fun _ => rfl, fun _ _ => rfl⟩,
    ⟨rfl, rfl, rfl, rfl, rfl, fun _ => rfl, fun _ => rfl⟩,
    ⟨rfl, rfl⟩,
    ⟨fun _ _ _ => rfl, fun _ => rfl⟩,
    ⟨fun _ => rfl, fun _ => rfl⟩,
    ⟨rfl, rfl, rfl, rfl, rfl, rfl, fun _ _ => rfl⟩,
    ⟨fun _ _ _ => rfl, fun _ _ _ => rfl, fun _ _ => rfl, rfl, ?_,
      fun _ _ _ _ _ _ _ _ _ _ => rfl, fun _ _ _ _ _ _ => rfl, fun _ _ _ _ _ _ => rfl,
      fun _ _ _ _ _ => rfl, fun _ _ _ _ => rfl⟩⟩
  intro privKey address data gasLimit fee
  cases address with
  | none => simp [transactor.Transact, MockPipe.Transactor, NewMockPipe, len, Slice.elems]
  | some xs =>
    by_cases h : xs.length = 0 <;>
      simp [transactor.Transact, MockPipe.Transactor, NewMockPipe, len, Slice.elems, h]

end mock
